import Mathlib

/-!
# Native memory tracking gate (`services/memTracker.hpp`) and GC tracer ids
(`gc_implementation/shared/gcTrace.cpp`)

A shallow embedding of the inline functions of `MemTracker` and of the start
and the end of a report of `GCTracer` and its subclasses, followed by the
properties proved about them.

Conventions of the embedding:
* C++ enumerations are inductive types together with a `toNat` giving the
  enumerator values, so that `>=` on enumerators is `≥` on those values;
* pointers (`address`, `Thread*`, `MemSnapshot*`) are natural numbers, `NULL`
  being `0`;
* `assert` only exists in builds that define `ASSERT`; a failed assertion stops
  the entry point;
* `create_memory_record` is declared in the header but defined elsewhere: an
  entry point is described by the sequence of calls it makes to it.
-/

namespace MemTracker

/-! ## Enumerations -/

/-- NMT state (`enum NMTStates`). -/
inductive NMTStates
  | NMT_uninited
  | NMT_bootstrapping_single_thread
  | NMT_bootstrapping_multi_thread
  | NMT_started
  | NMT_shutdown_pending
  | NMT_final_shutdown
  | NMT_shutdown
  deriving DecidableEq, Repr

/-- Enumerator values of `NMTStates`, in declaration order. -/
def NMTStates.toNat : NMTStates → Nat
  | .NMT_uninited => 0
  | .NMT_bootstrapping_single_thread => 1
  | .NMT_bootstrapping_multi_thread => 2
  | .NMT_started => 3
  | .NMT_shutdown_pending => 4
  | .NMT_final_shutdown => 5
  | .NMT_shutdown => 6

/-- Native memory tracking level (`enum NMTLevel`). -/
inductive NMTLevel
  | NMT_off
  | NMT_summary
  | NMT_detail
  deriving DecidableEq, Repr

/-- Enumerator values of `NMTLevel`, in declaration order. -/
def NMTLevel.toNat : NMTLevel → Nat
  | .NMT_off => 0
  | .NMT_summary => 1
  | .NMT_detail => 2

/-- Reason of a shutdown (`enum ShutdownReason`). -/
inductive ShutdownReason
  | NMT_shutdown_none
  | NMT_shutdown_user
  | NMT_normal
  | NMT_out_of_memory
  | NMT_initialization
  | NMT_use_malloc_only
  | NMT_error_reporting
  | NMT_out_of_generation
  | NMT_sequence_overflow
  deriving DecidableEq, Repr

/-- Enumerator values of `ShutdownReason`, in declaration order. -/
def ShutdownReason.toNat : ShutdownReason → Nat
  | .NMT_shutdown_none => 0
  | .NMT_shutdown_user => 1
  | .NMT_normal => 2
  | .NMT_out_of_memory => 3
  | .NMT_initialization => 4
  | .NMT_use_malloc_only => 5
  | .NMT_error_reporting => 6
  | .NMT_out_of_generation => 7
  | .NMT_sequence_overflow => 8

/-! ## Tracker state -/

/-- The static fields of `MemTracker` read or written by the inline functions
of the header, and the two VM flags (`AutoShutdownNMT`, `UseMallocOnly`) they
consult. `_snapshot` is a pointer, `0` being `NULL`. -/
structure Tracker where
  _tracking_level : NMTLevel
  _state : NMTStates
  _reason : ShutdownReason
  _slowdown_calling_thread : Bool
  _snapshot : Nat
  AutoShutdownNMT : Bool
  UseMallocOnly : Bool
  deriving DecidableEq, Repr

/-- `MemTracker::is_on()`:
`_tracking_level >= NMT_summary && _state >= NMT_bootstrapping_single_thread`. -/
def is_on (t : Tracker) : Bool :=
  decide (t._tracking_level.toNat ≥ NMTLevel.NMT_summary.toNat) &&
    decide (t._state.toNat ≥ NMTStates.NMT_bootstrapping_single_thread.toNat)

/-- `MemTracker::tracking_level()`. -/
def tracking_level (t : Tracker) : NMTLevel :=
  t._tracking_level

/-- `MemTracker::shutdown_in_progress()`: `_state >= NMT_shutdown_pending`. -/
def shutdown_in_progress (t : Tracker) : Bool :=
  decide (t._state.toNat ≥ NMTStates.NMT_shutdown_pending.toNat)

/-- `MemTracker::get_snapshot()`: `NULL` while a shutdown is in progress,
otherwise the stored `_snapshot` pointer. -/
def get_snapshot (t : Tracker) : Nat :=
  if shutdown_in_progress t then 0 else t._snapshot

/-- `MemTracker::reason()` as a `switch` over the value of `_reason`, the cases
in the order of the source. `none` is the `default` branch
(`ShouldNotReachHere(); return NULL;`). -/
def reason_of_value (v : Nat) : Option String :=
  if v = ShutdownReason.NMT_shutdown_none.toNat then
    some "Native memory tracking is not enabled"
  else if v = ShutdownReason.NMT_shutdown_user.toNat then
    some "Native memory tracking has been shutdown by user"
  else if v = ShutdownReason.NMT_normal.toNat then
    some "Native memory tracking has been shutdown due to process exiting"
  else if v = ShutdownReason.NMT_out_of_memory.toNat then
    some "Native memory tracking has been shutdown due to out of native memory"
  else if v = ShutdownReason.NMT_initialization.toNat then
    some "Native memory tracking failed to initialize"
  else if v = ShutdownReason.NMT_error_reporting.toNat then
    some "Native memory tracking has been shutdown due to error reporting"
  else if v = ShutdownReason.NMT_out_of_generation.toNat then
    some "Native memory tracking has been shutdown due to running out of generation buffer"
  else if v = ShutdownReason.NMT_sequence_overflow.toNat then
    some "Native memory tracking has been shutdown due to overflow the sequence number"
  else if v = ShutdownReason.NMT_use_malloc_only.toNat then
    some "Native memory tracking is not supported when UseMallocOnly is on"
  else
    none

/-- `MemTracker::reason()`: the message for the stored `_reason`. -/
def reason (t : Tracker) : Option String :=
  reason_of_value t._reason.toNat

/-! ## Declarations used by the header but made elsewhere -/

/-- Pointer width of the platform: `sizeof(void*)` is 4 or 8. -/
inductive DataModel
  | ILP32
  | LP64
  deriving DecidableEq, Repr

/-- `sizeof(void*)` in bytes. -/
def sizeof_voidp : DataModel → Nat
  | .ILP32 => 4
  | .LP64 => 8

/-- Number of values of an `address` (`2 ^ (8 * sizeof(void*))`). -/
def address_range (dm : DataModel) : Nat :=
  2 ^ (8 * sizeof_voidp dm)

/-- What the recording entry points take from other headers and from the
build: whether `ASSERT` is defined, the global `NMT_track_callsite`, the value
`os::get_caller_pc(2)` yields at the call, the macro `NMT_CAN_TRACK`, the
record tags of `MemPointerRecord`, the memory type `mtThreadStack`, the mask
`mt_masks`, and `Thread::is_Java_thread()` of the thread a pointer refers to.
`MEMFLAGS` values are natural numbers. -/
structure Env where
  dataModel : DataModel
  ASSERT : Bool
  NMT_track_callsite : Bool
  os_get_caller_pc : Nat
  NMT_CAN_TRACK : Nat → Bool
  malloc_tag : Nat
  free_tag : Nat
  arena_size_tag : Nat
  virtual_memory_reserve_tag : Nat
  virtual_memory_commit_tag : Nat
  virtual_memory_uncommit_tag : Nat
  virtual_memory_release_tag : Nat
  virtual_memory_type_tag : Nat
  mtThreadStack : Nat
  mt_masks : Nat
  is_Java_thread : Nat → Bool

/-- `DEBUG_CALLER_PC`: with `ASSERT`,
`NMT_track_callsite ? os::get_caller_pc(2) : 0`; otherwise `0`. -/
def DEBUG_CALLER_PC (env : Env) : Nat :=
  if env.ASSERT then (if env.NMT_track_callsite then env.os_get_caller_pc else 0) else 0

/-- The operand `~m` of `&`, at the 32-bit width of `int` to which `MEMFLAGS`
operands are promoted. -/
def bit_complement (m : Nat) : Nat :=
  2 ^ 32 - 1 - m % 2 ^ 32

/-! ## Calls to `create_memory_record` -/

/-- One call `create_memory_record(addr, type, size, pc, thread)`. -/
structure MemRecordCall where
  addr : Nat
  type : Nat
  size : Nat
  pc : Nat
  thread : Nat
  deriving DecidableEq, Repr

/-- What an entry point did: the `create_memory_record` calls it made, in
order, and the message of the assertion that stopped it, if one did. -/
structure Outcome where
  records : List MemRecordCall
  failure : Option String
  deriving DecidableEq, Repr

/-- An empty statement. -/
def Outcome.skip : Outcome :=
  { records := [], failure := none }

/-- Sequential composition: `b` runs after `a` unless an assertion stopped
`a`. -/
def Outcome.seq (a b : Outcome) : Outcome :=
  match a.failure with
  | some _ => a
  | none => { records := a.records ++ b.records, failure := b.failure }

/-- `assert(cond, msg)`: present only when `ASSERT` is defined. -/
def vm_assert (env : Env) (cond : Bool) (msg : String) : Outcome :=
  if env.ASSERT && !cond then { records := [], failure := some msg } else Outcome.skip

/-- `MemTracker::create_memory_record(addr, type, size, pc, thread)`: the body
is not part of the header, the call is logged. -/
def create_memory_record (addr type size pc thread : Nat) : Outcome :=
  { records := [{ addr := addr, type := type, size := size, pc := pc, thread := thread }],
    failure := none }

/-! ## Recording entry points -/

/-- `MemTracker::record_malloc(addr, size, flags, pc, thread)`. -/
def record_malloc (env : Env) (t : Tracker) (addr size flags pc thread : Nat) : Outcome :=
  if is_on t && env.NMT_CAN_TRACK flags then
    (vm_assert env (decide (size > 0)) "Sanity check").seq
      (create_memory_record addr (flags ||| env.malloc_tag) size pc thread)
  else Outcome.skip

/-- `MemTracker::record_free(addr, flags, thread)`. -/
def record_free (env : Env) (t : Tracker) (addr flags thread : Nat) : Outcome :=
  if is_on t && env.NMT_CAN_TRACK flags then
    create_memory_record addr env.free_tag 0 0 thread
  else Outcome.skip

/-- `MemTracker::record_realloc(old_addr, new_addr, size, flags, pc, thread)`. -/
def record_realloc (env : Env) (t : Tracker) (old_addr new_addr size flags pc thread : Nat) :
    Outcome :=
  if is_on t && env.NMT_CAN_TRACK flags then
    (vm_assert env (decide (size > 0)) "Sanity check").seq
      ((record_free env t old_addr flags thread).seq
        (record_malloc env t new_addr size flags pc thread))
  else Outcome.skip

/-- `MemTracker::record_arena_size(addr, size)`: the record is made at
`addr + sizeof(void*)`, computed in the width of an `address`. -/
def record_arena_size (env : Env) (t : Tracker) (addr size : Nat) : Outcome :=
  if is_on t && !t.UseMallocOnly then
    (vm_assert env (decide (addr ≠ 0)) "Sanity check").seq
      (create_memory_record ((addr + sizeof_voidp env.dataModel) % address_range env.dataModel)
        env.arena_size_tag size (DEBUG_CALLER_PC env) 0)
  else Outcome.skip

/-- `MemTracker::record_virtual_memory_reserve(addr, size, pc, thread)`. -/
def record_virtual_memory_reserve (env : Env) (t : Tracker) (addr size pc thread : Nat) :
    Outcome :=
  if is_on t then
    (vm_assert env (decide (size > 0)) "Sanity check").seq
      (create_memory_record addr env.virtual_memory_reserve_tag size pc thread)
  else Outcome.skip

/-- `MemTracker::record_thread_stack(addr, size, thr, pc)`. -/
def record_thread_stack (env : Env) (t : Tracker) (addr size thr pc : Nat) : Outcome :=
  if is_on t then
    (vm_assert env (decide (size > 0) && decide (thr ≠ 0)) "Sanity check").seq
      ((create_memory_record addr (env.virtual_memory_reserve_tag ||| env.mtThreadStack)
          size pc thr).seq
        (create_memory_record addr (env.virtual_memory_commit_tag ||| env.mtThreadStack)
          size pc thr))
  else Outcome.skip

/-- `MemTracker::release_thread_stack(addr, size, thr)`. -/
def release_thread_stack (env : Env) (t : Tracker) (addr size thr : Nat) : Outcome :=
  if is_on t then
    (vm_assert env (decide (size > 0) && decide (thr ≠ 0)) "Sanity check").seq
      ((vm_assert env (!env.is_Java_thread thr) "too early").seq
        ((create_memory_record addr (env.virtual_memory_uncommit_tag ||| env.mtThreadStack)
            size (DEBUG_CALLER_PC env) thr).seq
          (create_memory_record addr (env.virtual_memory_release_tag ||| env.mtThreadStack)
            size (DEBUG_CALLER_PC env) thr)))
  else Outcome.skip

/-- `MemTracker::record_virtual_memory_commit(addr, size, pc, thread)`. -/
def record_virtual_memory_commit (env : Env) (t : Tracker) (addr size pc thread : Nat) :
    Outcome :=
  if is_on t then
    (vm_assert env (decide (size > 0)) "Sanity check").seq
      (create_memory_record addr env.virtual_memory_commit_tag size pc thread)
  else Outcome.skip

/-- `MemTracker::record_virtual_memory_uncommit(addr, size, thread)`. -/
def record_virtual_memory_uncommit (env : Env) (t : Tracker) (addr size thread : Nat) :
    Outcome :=
  if is_on t then
    (vm_assert env (decide (size > 0)) "Sanity check").seq
      (create_memory_record addr env.virtual_memory_uncommit_tag size (DEBUG_CALLER_PC env)
        thread)
  else Outcome.skip

/-- `MemTracker::record_virtual_memory_release(addr, size, thread)`. -/
def record_virtual_memory_release (env : Env) (t : Tracker) (addr size thread : Nat) :
    Outcome :=
  if is_on t then
    (vm_assert env (decide (size > 0)) "Sanity check").seq
      (create_memory_record addr env.virtual_memory_release_tag size (DEBUG_CALLER_PC env)
        thread)
  else Outcome.skip

/-- `MemTracker::record_virtual_memory_type(base, flags, thread)`. -/
def record_virtual_memory_type (env : Env) (t : Tracker) (base flags thread : Nat) : Outcome :=
  if is_on t then
    (vm_assert env (decide (base > 0)) "wrong base address").seq
      ((vm_assert env (decide (flags &&& bit_complement env.mt_masks = 0))
          "memory type only").seq
        (create_memory_record base (flags ||| env.virtual_memory_type_tag) 0
          (DEBUG_CALLER_PC env) thread))
  else Outcome.skip

/-! ## Sample configurations -/

/-- A build with assertions on an LP64 platform. The tag, mask and category
values are sample values for the declarations made in other headers; every
category except `0` is taken as trackable. -/
def sampleEnv : Env :=
  { dataModel := DataModel.LP64
    ASSERT := true
    NMT_track_callsite := false
    os_get_caller_pc := 0
    NMT_CAN_TRACK := fun flags => decide (flags ≠ 0)
    malloc_tag := 1
    free_tag := 8
    arena_size_tag := 16
    virtual_memory_reserve_tag := 17
    virtual_memory_commit_tag := 18
    virtual_memory_uncommit_tag := 20
    virtual_memory_release_tag := 24
    virtual_memory_type_tag := 19
    mtThreadStack := 768
    mt_masks := 32512
    is_Java_thread := fun _ => false }

/-- The same configuration in a build without `ASSERT`. -/
def productEnv : Env :=
  { sampleEnv with ASSERT := false }

/-- A started tracker at summary level. -/
def startedTracker : Tracker :=
  { _tracking_level := NMTLevel.NMT_summary
    _state := NMTStates.NMT_started
    _reason := ShutdownReason.NMT_shutdown_none
    _slowdown_calling_thread := false
    _snapshot := 4096
    AutoShutdownNMT := true
    UseMallocOnly := false }

/-- A tracker at level off. -/
def offTracker : Tracker :=
  { startedTracker with _tracking_level := NMTLevel.NMT_off }

/-- A summary-level tracker whose shutdown is pending. -/
def pendingTracker : Tracker :=
  { startedTracker with _state := NMTStates.NMT_shutdown_pending }

/-! ## The auto-shutdown toggle -/

/-- `MemTracker::set_autoShutdown(value)`: `AutoShutdownNMT = value;` then, if
`AutoShutdownNMT && _slowdown_calling_thread`, `_slowdown_calling_thread = false`. -/
def set_autoShutdown (t : Tracker) (value : Bool) : Tracker :=
  if ({ t with AutoShutdownNMT := value } : Tracker).AutoShutdownNMT &&
      ({ t with AutoShutdownNMT := value } : Tracker)._slowdown_calling_thread then
    { t with AutoShutdownNMT := value, _slowdown_calling_thread := false }
  else
    { t with AutoShutdownNMT := value }

/-- A started tracker with auto-shutdown disabled that is slowing down the
calling thread. -/
def throttledTracker : Tracker :=
  { startedTracker with AutoShutdownNMT := false, _slowdown_calling_thread := true }

/-- The configuration `sampleEnv` in which the thread at 7 is a Java thread. -/
def javaThreadEnv : Env :=
  { sampleEnv with is_Java_thread := fun thr => decide (thr = 7) }

end MemTracker

namespace GCTrace

/-! ## GC identifiers (`gcTrace.cpp`) -/

/-- A C++ integer type: its width in bits and whether it is signed. -/
structure IntType where
  bits : Nat
  signed : Bool
  deriving DecidableEq, Repr

/-- Largest value of an integer type. -/
def IntType.maxValue (ty : IntType) : Int :=
  if ty.signed then 2 ^ (ty.bits - 1) - 1 else 2 ^ ty.bits - 1

/-- Conversion of a value to an integer type: reduction modulo `2 ^ bits`, read
as two's complement when the type is signed. -/
def IntType.wrap (ty : IntType) (v : Int) : Int :=
  if ty.signed && decide (v % 2 ^ ty.bits ≥ 2 ^ (ty.bits - 1)) then
    v % 2 ^ ty.bits - 2 ^ ty.bits
  else
    v % 2 ^ ty.bits

/-- The type `jlong` of the counter `GCTracer_next_gc_id`: 64 bits, signed. -/
def jlong : IntType :=
  { bits := 64, signed := true }

/-- What `gcTrace.cpp` takes from `gcTrace.hpp` and from the build: whether
`ASSERT` is defined, the integer type behind the typedef `GCId`, and the
constants `SharedGCInfo::UNSET_GCID` and `UNSET_TENURING_THRESHOLD`. -/
structure Config where
  ASSERT : Bool
  GCId : IntType
  UNSET_GCID : Int
  UNSET_TENURING_THRESHOLD : Nat
  deriving DecidableEq, Repr

/-- The classes for which `gcTrace.cpp` defines `report_gc_end_impl`:
`GCTracer`, its subclasses `YoungGCTracer` and `OldGCTracer`, `G1NewTracer`
(a `YoungGCTracer`) and `ParallelOldTracer` (an `OldGCTracer`). -/
inductive TracerClass
  | GCTracer
  | YoungGCTracer
  | OldGCTracer
  | ParallelOldTracer
  | G1NewTracer
  deriving DecidableEq, Repr

/-- The fields of `SharedGCInfo` set by the tracer. -/
structure SharedGCInfo where
  _id : Int
  _cause : Nat
  _start_timestamp : Int
  _end_timestamp : Int
  _sum_of_pauses : Int
  _longest_pause : Int
  deriving DecidableEq, Repr

/-- A tracer object: the class it was created as, which decides the
`report_gc_end_impl` a call reaches, the `_shared_gc_info` of `GCTracer`, and
the `_tenuring_threshold` of `YoungGCTracer` (read and written only for the
classes `YoungGCTracer` and `G1NewTracer`). -/
structure GCTracer where
  dynamic_class : TracerClass
  _shared_gc_info : SharedGCInfo
  _tenuring_threshold : Nat
  deriving DecidableEq, Repr

/-- `create_new_gc_id()`: `return GCTracer_next_gc_id++;`. Given the value of
the counter, the id returned (the old value converted to `GCId`) and the new
value of the counter. -/
def create_new_gc_id (cfg : Config) (GCTracer_next_gc_id : Int) : Int × Int :=
  (cfg.GCId.wrap GCTracer_next_gc_id, jlong.wrap (GCTracer_next_gc_id + 1))

/-- `GCTracer::report_gc_start_impl(cause, timestamp)`: the new counter value
and the updated tracer, or the message of the failed assertion. -/
def report_gc_start_impl (cfg : Config) (GCTracer_next_gc_id : Int) (tr : GCTracer) (cause : Nat)
    (timestamp : Int) : Except String (Int × GCTracer) :=
  if cfg.ASSERT && !decide (tr._shared_gc_info._id = cfg.UNSET_GCID) then
    Except.error "GC already started?"
  else
    Except.ok ((create_new_gc_id cfg GCTracer_next_gc_id).2,
      { tr with _shared_gc_info :=
          { tr._shared_gc_info with
            _id := (create_new_gc_id cfg GCTracer_next_gc_id).1
            _cause := cause
            _start_timestamp := timestamp } })

/-- `GCTracer::report_gc_start(cause, timestamp)`. -/
def report_gc_start (cfg : Config) (GCTracer_next_gc_id : Int) (tr : GCTracer) (cause : Nat)
    (timestamp : Int) : Except String (Int × GCTracer) :=
  if cfg.ASSERT && !decide (tr._shared_gc_info._id = cfg.UNSET_GCID) then
    Except.error "GC already started?"
  else
    report_gc_start_impl cfg GCTracer_next_gc_id tr cause timestamp

/-- `GCTracer::has_reported_gc_start()`. -/
def has_reported_gc_start (cfg : Config) (tr : GCTracer) : Bool :=
  decide (tr._shared_gc_info._id ≠ cfg.UNSET_GCID)

/-- One call of `report_gc_start`: the tracer it is made on, as it is at the
call, and the arguments. -/
structure StartCall where
  tracer : GCTracer
  cause : Nat
  timestamp : Int
  deriving DecidableEq, Repr

/-- A run of the program seen from the counter: the calls of `report_gc_start`
in program order, each on its own tracer. Yields the final counter value and
the tracers as each call left them, or the message of the first failed
assertion. -/
def report_gc_starts (cfg : Config) : Int → List StartCall → Except String (Int × List GCTracer)
  | GCTracer_next_gc_id, [] => Except.ok (GCTracer_next_gc_id, [])
  | GCTracer_next_gc_id, c :: cs =>
    match report_gc_start cfg GCTracer_next_gc_id c.tracer c.cause c.timestamp with
    | Except.error msg => Except.error msg
    | Except.ok (next_gc_id1, tr) =>
      match report_gc_starts cfg next_gc_id1 cs with
      | Except.error msg => Except.error msg
      | Except.ok (next_gc_id2, trs) => Except.ok (next_gc_id2, tr :: trs)

/-- The ids stored in a list of tracers. -/
def stored_ids (trs : List GCTracer) : List Int :=
  trs.map (fun tr => tr._shared_gc_info._id)

/-- A build with assertions in which `GCId` is a 32-bit unsigned type and
`UNSET_GCID` its largest value (sample values for the declarations of
`gcTrace.hpp`). -/
def sampleConfig : Config :=
  { ASSERT := true, GCId := { bits := 32, signed := false }, UNSET_GCID := 4294967295,
    UNSET_TENURING_THRESHOLD := 4294967295 }

/-- A tracer of class `OldGCTracer` with no report open under `sampleConfig`. -/
def idleTracer : GCTracer :=
  { dynamic_class := TracerClass.OldGCTracer
    _shared_gc_info :=
      { _id := 4294967295, _cause := 0, _start_timestamp := -1, _end_timestamp := -1,
        _sum_of_pauses := 0, _longest_pause := 0 }
    _tenuring_threshold := 4294967295 }

/-- The tracer `idleTracer` after a GC start that received id 0: a report is
open on it. -/
def openTracer : GCTracer :=
  { dynamic_class := TracerClass.OldGCTracer
    _shared_gc_info :=
      { _id := 0, _cause := 1, _start_timestamp := 100, _end_timestamp := -1,
        _sum_of_pauses := 0, _longest_pause := 0 }
    _tenuring_threshold := 4294967295 }

/-- Three GC starts, on idle tracers. -/
def sampleStarts : List StartCall :=
  [{ tracer := idleTracer, cause := 1, timestamp := 100 },
   { tracer := idleTracer, cause := 2, timestamp := 200 },
   { tracer := idleTracer, cause := 1, timestamp := 300 }]

/-! ## The end of a GC report -/

/-- What `report_gc_end` reads from its `TimePartitions*` argument:
`sum_of_pauses()` and `longest_pause()`. -/
structure TimePartitions where
  sum_of_pauses : Int
  longest_pause : Int
  deriving DecidableEq, Repr

/-- The event-sending member functions called at the end of a report; they are
defined outside `gcTrace.cpp`. -/
inductive SendCall
  | send_phase_events
  | send_garbage_collection_event
  | send_young_gc_event
  | send_old_gc_event
  | send_parallel_old_event
  | send_g1_young_gc_event
  deriving DecidableEq, Repr

/-- One call of an event-sending function: which one, and the tracer object as
it is at the moment of the call. -/
structure SentEvent where
  call : SendCall
  tracer : GCTracer
  deriving DecidableEq, Repr

/-- `YoungGCTracer::report_tenuring_threshold(tenuring_threshold)`. -/
def report_tenuring_threshold (tr : GCTracer) (tenuring_threshold : Nat) : GCTracer :=
  { tr with _tenuring_threshold := tenuring_threshold }

/-- The three setter calls of `GCTracer::report_gc_end_impl`:
`set_sum_of_pauses`, `set_longest_pause` and `set_end_timestamp`. -/
def set_end_info (tr : GCTracer) (timestamp : Int) (tp : TimePartitions) : GCTracer :=
  { tr with _shared_gc_info :=
      { tr._shared_gc_info with
        _sum_of_pauses := tp.sum_of_pauses
        _longest_pause := tp.longest_pause
        _end_timestamp := timestamp } }

/-- `GCTracer::report_gc_end_impl(timestamp, time_partitions)`: the updated
tracer and the events sent, or the message of the failed assertion. -/
def GCTracer.report_gc_end_impl (cfg : Config) (tr : GCTracer) (timestamp : Int)
    (tp : TimePartitions) : Except String (GCTracer × List SentEvent) :=
  if cfg.ASSERT && !decide (tr._shared_gc_info._id ≠ cfg.UNSET_GCID) then
    Except.error "GC not started?"
  else
    Except.ok (set_end_info tr timestamp tp,
      [{ call := SendCall.send_phase_events, tracer := set_end_info tr timestamp tp },
       { call := SendCall.send_garbage_collection_event,
         tracer := set_end_info tr timestamp tp }])

/-- `YoungGCTracer::report_gc_end_impl(timestamp, time_partitions)`: two
assertions, `GCTracer::report_gc_end_impl`, `send_young_gc_event()`, then
`_tenuring_threshold = UNSET_TENURING_THRESHOLD`. -/
def YoungGCTracer.report_gc_end_impl (cfg : Config) (tr : GCTracer) (timestamp : Int)
    (tp : TimePartitions) : Except String (GCTracer × List SentEvent) :=
  if cfg.ASSERT && !decide (tr._shared_gc_info._id ≠ cfg.UNSET_GCID) then
    Except.error "GC not started?"
  else if cfg.ASSERT && !decide (tr._tenuring_threshold ≠ cfg.UNSET_TENURING_THRESHOLD) then
    Except.error "Tenuring threshold has not been reported"
  else
    match GCTracer.report_gc_end_impl cfg tr timestamp tp with
    | Except.error msg => Except.error msg
    | Except.ok (tr1, events) =>
      Except.ok ({ tr1 with _tenuring_threshold := cfg.UNSET_TENURING_THRESHOLD },
        events ++ [{ call := SendCall.send_young_gc_event, tracer := tr1 }])

/-- `OldGCTracer::report_gc_end_impl(timestamp, time_partitions)`: the
assertion, `GCTracer::report_gc_end_impl`, then `send_old_gc_event()`. -/
def OldGCTracer.report_gc_end_impl (cfg : Config) (tr : GCTracer) (timestamp : Int)
    (tp : TimePartitions) : Except String (GCTracer × List SentEvent) :=
  if cfg.ASSERT && !decide (tr._shared_gc_info._id ≠ cfg.UNSET_GCID) then
    Except.error "GC not started?"
  else
    match GCTracer.report_gc_end_impl cfg tr timestamp tp with
    | Except.error msg => Except.error msg
    | Except.ok (tr1, events) =>
      Except.ok (tr1, events ++ [{ call := SendCall.send_old_gc_event, tracer := tr1 }])

/-- `ParallelOldTracer::report_gc_end_impl(timestamp, time_partitions)`: the
assertion, `OldGCTracer::report_gc_end_impl`, then `send_parallel_old_event()`. -/
def ParallelOldTracer.report_gc_end_impl (cfg : Config) (tr : GCTracer) (timestamp : Int)
    (tp : TimePartitions) : Except String (GCTracer × List SentEvent) :=
  if cfg.ASSERT && !decide (tr._shared_gc_info._id ≠ cfg.UNSET_GCID) then
    Except.error "GC not started?"
  else
    match OldGCTracer.report_gc_end_impl cfg tr timestamp tp with
    | Except.error msg => Except.error msg
    | Except.ok (tr1, events) =>
      Except.ok (tr1, events ++ [{ call := SendCall.send_parallel_old_event, tracer := tr1 }])

/-- `G1NewTracer::report_gc_end_impl(timestamp, time_partitions)`: the
assertion, `YoungGCTracer::report_gc_end_impl`, then `send_g1_young_gc_event()`. -/
def G1NewTracer.report_gc_end_impl (cfg : Config) (tr : GCTracer) (timestamp : Int)
    (tp : TimePartitions) : Except String (GCTracer × List SentEvent) :=
  if cfg.ASSERT && !decide (tr._shared_gc_info._id ≠ cfg.UNSET_GCID) then
    Except.error "GC not started?"
  else
    match YoungGCTracer.report_gc_end_impl cfg tr timestamp tp with
    | Except.error msg => Except.error msg
    | Except.ok (tr1, events) =>
      Except.ok (tr1, events ++ [{ call := SendCall.send_g1_young_gc_event, tracer := tr1 }])

/-- The call `report_gc_end_impl(timestamp, time_partitions)` made by
`report_gc_end`: it reaches the implementation of the class of the object. -/
def report_gc_end_impl (cfg : Config) (tr : GCTracer) (timestamp : Int) (tp : TimePartitions) :
    Except String (GCTracer × List SentEvent) :=
  match tr.dynamic_class with
  | TracerClass.GCTracer => GCTracer.report_gc_end_impl cfg tr timestamp tp
  | TracerClass.YoungGCTracer => YoungGCTracer.report_gc_end_impl cfg tr timestamp tp
  | TracerClass.OldGCTracer => OldGCTracer.report_gc_end_impl cfg tr timestamp tp
  | TracerClass.ParallelOldTracer => ParallelOldTracer.report_gc_end_impl cfg tr timestamp tp
  | TracerClass.G1NewTracer => G1NewTracer.report_gc_end_impl cfg tr timestamp tp

/-- `GCTracer::report_gc_end(timestamp, time_partitions)`: the entry assertion,
the call of `report_gc_end_impl`, then
`_shared_gc_info.set_id(SharedGCInfo::UNSET_GCID)`. -/
def report_gc_end (cfg : Config) (tr : GCTracer) (timestamp : Int) (tp : TimePartitions) :
    Except String (GCTracer × List SentEvent) :=
  if cfg.ASSERT && !decide (tr._shared_gc_info._id ≠ cfg.UNSET_GCID) then
    Except.error "GC not started?"
  else
    match report_gc_end_impl cfg tr timestamp tp with
    | Except.error msg => Except.error msg
    | Except.ok (tr1, events) =>
      Except.ok
        ({ tr1 with _shared_gc_info := { tr1._shared_gc_info with _id := cfg.UNSET_GCID } },
         events)

/-- The pause statistics of a sample collection. -/
def samplePartitions : TimePartitions :=
  { sum_of_pauses := 30, longest_pause := 20 }

/-- A tracer of class `YoungGCTracer` with no report open and no tenuring
threshold reported, under `sampleConfig`. -/
def idleYoungTracer : GCTracer :=
  { idleTracer with dynamic_class := TracerClass.YoungGCTracer }

/-- The tracer `idleYoungTracer` after a GC start that received id 0: a report
is open on it and no tenuring threshold has been reported. -/
def openYoungTracer : GCTracer :=
  { openTracer with dynamic_class := TracerClass.YoungGCTracer }

end GCTrace

namespace MemTracker

/-! ## The gate `is_on()` -/

/-- C1: for every tracking level and every lifecycle state, `is_on()` is true
exactly when the level is summary or detail (at least summary) and the state is
not uninited (at least bootstrapping-single-thread in the order of the
enumeration), the enumerators being ordered uninited <
bootstrapping-single-thread < bootstrapping-multi-thread < started <
shutdown-pending < final-shutdown < shutdown and off < summary < detail. -/
theorem is_on_iff (t : Tracker) :
    (is_on t = true ↔
      ((t._tracking_level = NMTLevel.NMT_summary ∨ t._tracking_level = NMTLevel.NMT_detail) ∧
        t._state ≠ NMTStates.NMT_uninited)) ∧
    (is_on t = true ↔
      (NMTLevel.NMT_summary.toNat ≤ t._tracking_level.toNat ∧
        NMTStates.NMT_bootstrapping_single_thread.toNat ≤ t._state.toNat)) ∧
    (NMTStates.NMT_uninited.toNat < NMTStates.NMT_bootstrapping_single_thread.toNat ∧
      NMTStates.NMT_bootstrapping_single_thread.toNat <
        NMTStates.NMT_bootstrapping_multi_thread.toNat ∧
      NMTStates.NMT_bootstrapping_multi_thread.toNat < NMTStates.NMT_started.toNat ∧
      NMTStates.NMT_started.toNat < NMTStates.NMT_shutdown_pending.toNat ∧
      NMTStates.NMT_shutdown_pending.toNat < NMTStates.NMT_final_shutdown.toNat ∧
      NMTStates.NMT_final_shutdown.toNat < NMTStates.NMT_shutdown.toNat) ∧
    (NMTLevel.NMT_off.toNat < NMTLevel.NMT_summary.toNat ∧
      NMTLevel.NMT_summary.toNat < NMTLevel.NMT_detail.toNat) := by
  obtain ⟨lvl, st, r, sl, sn, au, um⟩ := t
  refine ⟨?_, ?_, by decide, by decide⟩
  · cases lvl <;> cases st <;> simp [is_on, NMTLevel.toNat, NMTStates.toNat]
  · cases lvl <;> cases st <;> simp [is_on, NMTLevel.toNat, NMTStates.toNat]

/-! ## Shutdown and `is_on()` -/

/-- C2 (as stated, refuted): a summary-level tracker whose state is
shutdown-pending has `shutdown_in_progress()` true and `is_on()` true as well;
the same holds in final-shutdown and shutdown. -/
theorem is_on_while_shutdown_pending :
    shutdown_in_progress pendingTracker = true ∧ is_on pendingTracker = true ∧
      is_on { pendingTracker with _state := NMTStates.NMT_final_shutdown } = true ∧
      is_on { pendingTracker with _state := NMTStates.NMT_shutdown } = true := by
  decide

/-- C2 (amended): in every state from shutdown-pending onward `is_on()` is
false exactly when the tracking level is off; at level summary or detail it is
true there. -/
theorem is_on_during_shutdown (t : Tracker) (h : shutdown_in_progress t = true) :
    (is_on t = false ↔ t._tracking_level = NMTLevel.NMT_off) ∧
      (is_on t = true ↔
        (t._tracking_level = NMTLevel.NMT_summary ∨ t._tracking_level = NMTLevel.NMT_detail)) := by
  obtain ⟨lvl, st, r, sl, sn, au, um⟩ := t
  cases lvl <;> cases st <;>
    simp_all [is_on, shutdown_in_progress, NMTLevel.toNat, NMTStates.toNat]

/-- Witness of `is_on_during_shutdown` at a summary-level tracker in state
shutdown-pending. -/
theorem is_on_during_shutdown_witness :
    shutdown_in_progress pendingTracker = true ∧
      (is_on pendingTracker = false ↔ pendingTracker._tracking_level = NMTLevel.NMT_off) ∧
      (is_on pendingTracker = true ↔
        (pendingTracker._tracking_level = NMTLevel.NMT_summary ∨
          pendingTracker._tracking_level = NMTLevel.NMT_detail)) :=
  ⟨by decide, is_on_during_shutdown pendingTracker (by decide)⟩

/-! ## The recording entry points when tracking is off -/

/-- C3: when `is_on()` is false, or the flags are not trackable, `record_malloc`,
`record_free` and `record_realloc` make no `create_memory_record` call and fail
no assertion, for every argument; when `is_on()` is false the same holds for
`record_arena_size`, the five `record_virtual_memory_*` entry points,
`record_thread_stack` and `release_thread_stack`. -/
theorem record_noop_when_off (env : Env) (t : Tracker)
    (addr old_addr size flags pc thread : Nat)
    (h : is_on t = false ∨ env.NMT_CAN_TRACK flags = false) :
    record_malloc env t addr size flags pc thread = Outcome.skip ∧
    record_free env t addr flags thread = Outcome.skip ∧
    record_realloc env t old_addr addr size flags pc thread = Outcome.skip ∧
    Outcome.skip = { records := [], failure := none } ∧
    (is_on t = false →
      record_arena_size env t addr size = Outcome.skip ∧
      record_virtual_memory_reserve env t addr size pc thread = Outcome.skip ∧
      record_virtual_memory_commit env t addr size pc thread = Outcome.skip ∧
      record_virtual_memory_uncommit env t addr size thread = Outcome.skip ∧
      record_virtual_memory_release env t addr size thread = Outcome.skip ∧
      record_virtual_memory_type env t addr flags thread = Outcome.skip ∧
      record_thread_stack env t addr size thread pc = Outcome.skip ∧
      release_thread_stack env t addr size thread = Outcome.skip) := by
  refine ⟨?_, ?_, ?_, rfl, ?_⟩
  · rcases h with h | h <;> simp [record_malloc, h]
  · rcases h with h | h <;> simp [record_free, h]
  · rcases h with h | h <;> simp [record_realloc, h]
  · intro hoff
    simp [record_arena_size, record_virtual_memory_reserve, record_virtual_memory_commit,
      record_virtual_memory_uncommit, record_virtual_memory_release,
      record_virtual_memory_type, record_thread_stack, release_thread_stack, hoff]

/-- Witness of `record_noop_when_off`: once at a tracker whose level is off, once
at a started tracker with an untrackable category. -/
theorem record_noop_when_off_witness :
    is_on offTracker = false ∧ sampleEnv.NMT_CAN_TRACK 0 = false ∧
      is_on startedTracker = true ∧
      record_malloc sampleEnv offTracker 4096 64 1 0 0 = Outcome.skip ∧
      record_virtual_memory_reserve sampleEnv offTracker 4096 64 0 0 = Outcome.skip ∧
      record_thread_stack sampleEnv offTracker 4096 64 0 0 = Outcome.skip ∧
      record_malloc sampleEnv startedTracker 4096 64 0 0 0 = Outcome.skip ∧
      record_free sampleEnv startedTracker 4096 0 0 = Outcome.skip ∧
      record_realloc sampleEnv startedTracker 8192 4096 64 0 0 0 = Outcome.skip :=
  have hoff : is_on offTracker = false := by decide
  have a := record_noop_when_off sampleEnv offTracker 4096 8192 64 1 0 0 (Or.inl hoff)
  have b := record_noop_when_off sampleEnv startedTracker 4096 8192 64 0 0 0
    (Or.inr (by decide))
  ⟨hoff, by decide, by decide, a.1, (a.2.2.2.2 hoff).2.1, (a.2.2.2.2 hoff).2.2.2.2.2.2.1,
    b.1, b.2.1, b.2.2.1⟩

/-! ## The recording entry points when tracking is on -/

/-- The bits of a tag stay set in `flags | tag`. -/
theorem lor_land_tag (flags tag : Nat) : (flags ||| tag) &&& tag = tag := by
  apply Nat.eq_of_testBit_eq
  intro i
  simp only [Nat.testBit_land, Nat.testBit_lor]
  cases flags.testBit i <;> cases tag.testBit i <;> rfl

/-- An assertion whose condition holds, or that is compiled out, is an empty
statement. -/
theorem vm_assert_of_holds (env : Env) (cond : Bool) (msg : String)
    (h : env.ASSERT = true → cond = true) : vm_assert env cond msg = Outcome.skip := by
  unfold vm_assert
  cases ha : env.ASSERT
  · simp
  · simp [h ha]

/-- In a build with assertions, an assertion whose condition is false stops the
entry point with its message. -/
theorem vm_assert_of_fails (env : Env) (cond : Bool) (msg : String)
    (ha : env.ASSERT = true) (hc : cond = false) :
    vm_assert env cond msg = { records := [], failure := some msg } := by
  simp [vm_assert, ha, hc]

/-- Running a statement after an empty one is running that statement. -/
theorem skip_seq (o : Outcome) : Outcome.skip.seq o = o := by
  simp [Outcome.seq, Outcome.skip]

/-- Nothing runs after a failed assertion. -/
theorem failed_seq (msg : String) (o : Outcome) :
    Outcome.seq { records := [], failure := some msg } o =
      { records := [], failure := some msg } := by
  simp [Outcome.seq]

/-- C4 (as stated, refuted): in a build with assertions, with tracking on, a
trackable category and `UseMallocOnly` off, `record_malloc` called with size 0
fails its sanity assertion and makes no `create_memory_record` call; so do
`record_arena_size` called with a null address and
`record_virtual_memory_type` called with a null base. -/
theorem record_stopped_by_assertion :
    is_on startedTracker = true ∧ sampleEnv.NMT_CAN_TRACK 1 = true ∧
      startedTracker.UseMallocOnly = false ∧
      record_malloc sampleEnv startedTracker 4096 0 1 0 7 =
        { records := [], failure := some "Sanity check" } ∧
      record_arena_size sampleEnv startedTracker 0 64 =
        { records := [], failure := some "Sanity check" } ∧
      record_virtual_memory_type sampleEnv startedTracker 0 256 7 =
        { records := [], failure := some "wrong base address" } := by
  decide

/-- C4 (amended): when `is_on()` holds, each entry point makes exactly one
`create_memory_record` call and fails no assertion, under its own guard and its
own sanity assertions (which hold or are compiled out): `record_malloc` for a
trackable category and size > 0; `record_free` for a trackable category;
`record_arena_size` with `UseMallocOnly` off and a non-null address;
`record_virtual_memory_reserve`, `_commit`, `_uncommit` and `_release` for
size > 0; `record_virtual_memory_type` for a non-null base and
memory-type-only flags. The call carries the operation's tag (or-ed with the
flags for malloc and type), the thread argument (`NULL` for arena size, which
has no thread argument) and the size argument (0 for free and type). -/
theorem record_one_call (env : Env) (t : Tracker) (addr size flags pc thread : Nat)
    (hon : is_on t = true) :
    (env.NMT_CAN_TRACK flags = true → (env.ASSERT = true → 0 < size) →
      record_malloc env t addr size flags pc thread =
        { records := [{ addr := addr, type := flags ||| env.malloc_tag, size := size, pc := pc,
                        thread := thread }],
          failure := none }) ∧
    (flags ||| env.malloc_tag) &&& env.malloc_tag = env.malloc_tag ∧
    (env.NMT_CAN_TRACK flags = true →
      record_free env t addr flags thread =
        { records := [{ addr := addr, type := env.free_tag, size := 0, pc := 0,
                        thread := thread }],
          failure := none }) ∧
    (t.UseMallocOnly = false → (env.ASSERT = true → addr ≠ 0) →
      record_arena_size env t addr size =
        { records := [{ addr := (addr + sizeof_voidp env.dataModel) %
                          address_range env.dataModel,
                        type := env.arena_size_tag, size := size, pc := DEBUG_CALLER_PC env,
                        thread := 0 }],
          failure := none }) ∧
    ((env.ASSERT = true → 0 < size) →
      record_virtual_memory_reserve env t addr size pc thread =
        { records := [{ addr := addr, type := env.virtual_memory_reserve_tag, size := size,
                        pc := pc, thread := thread }],
          failure := none } ∧
      record_virtual_memory_commit env t addr size pc thread =
        { records := [{ addr := addr, type := env.virtual_memory_commit_tag, size := size,
                        pc := pc, thread := thread }],
          failure := none } ∧
      record_virtual_memory_uncommit env t addr size thread =
        { records := [{ addr := addr, type := env.virtual_memory_uncommit_tag, size := size,
                        pc := DEBUG_CALLER_PC env, thread := thread }],
          failure := none } ∧
      record_virtual_memory_release env t addr size thread =
        { records := [{ addr := addr, type := env.virtual_memory_release_tag, size := size,
                        pc := DEBUG_CALLER_PC env, thread := thread }],
          failure := none }) ∧
    ((env.ASSERT = true → addr ≠ 0) →
      (env.ASSERT = true → flags &&& bit_complement env.mt_masks = 0) →
      record_virtual_memory_type env t addr flags thread =
        { records := [{ addr := addr, type := flags ||| env.virtual_memory_type_tag,
                        size := 0, pc := DEBUG_CALLER_PC env, thread := thread }],
          failure := none }) ∧
    (flags ||| env.virtual_memory_type_tag) &&& env.virtual_memory_type_tag =
      env.virtual_memory_type_tag := by
  have hs : (env.ASSERT = true → 0 < size) →
      vm_assert env (decide (size > 0)) "Sanity check" = Outcome.skip :=
    fun hsize => vm_assert_of_holds _ _ _ (fun ha => decide_eq_true (hsize ha))
  refine ⟨?_, lor_land_tag _ _, ?_, ?_, ?_, ?_, lor_land_tag _ _⟩
  · intro htrack hsize
    simp [record_malloc, hon, htrack, hs hsize, skip_seq, create_memory_record]
  · intro htrack
    simp [record_free, hon, htrack, create_memory_record]
  · intro huse haddr
    have hn : vm_assert env (decide (addr ≠ 0)) "Sanity check" = Outcome.skip :=
      vm_assert_of_holds _ _ _ (fun ha => decide_eq_true (haddr ha))
    unfold record_arena_size
    rw [hn, skip_seq]
    simp [hon, huse, create_memory_record]
  · intro hsize
    refine ⟨?_, ?_, ?_, ?_⟩
    · simp [record_virtual_memory_reserve, hon, hs hsize, skip_seq, create_memory_record]
    · simp [record_virtual_memory_commit, hon, hs hsize, skip_seq, create_memory_record]
    · simp [record_virtual_memory_uncommit, hon, hs hsize, skip_seq, create_memory_record]
    · simp [record_virtual_memory_release, hon, hs hsize, skip_seq, create_memory_record]
  · intro haddr hflags
    have hb : vm_assert env (decide (addr > 0)) "wrong base address" = Outcome.skip :=
      vm_assert_of_holds _ _ _ (fun ha => decide_eq_true (Nat.pos_of_ne_zero (haddr ha)))
    have hf : vm_assert env (decide (flags &&& bit_complement env.mt_masks = 0))
        "memory type only" = Outcome.skip :=
      vm_assert_of_holds _ _ _ (fun ha => decide_eq_true (hflags ha))
    simp [record_virtual_memory_type, hon, hb, hf, skip_seq, create_memory_record]

/-- Witness of `record_one_call` at a started summary-level tracker in a build
with assertions: every entry point makes its one call; a commit, whose guard
does not look at `UseMallocOnly` or at the flags, does so as well for a null
address. -/
theorem record_one_call_witness :
    (is_on startedTracker = true ∧ sampleEnv.NMT_CAN_TRACK 256 = true ∧
      startedTracker.UseMallocOnly = false ∧ 256 &&& bit_complement sampleEnv.mt_masks = 0) ∧
    record_malloc sampleEnv startedTracker 4096 64 256 0 7 =
      { records := [{ addr := 4096, type := 257, size := 64, pc := 0, thread := 7 }],
        failure := none } ∧
    record_free sampleEnv startedTracker 4096 256 7 =
      { records := [{ addr := 4096, type := 8, size := 0, pc := 0, thread := 7 }],
        failure := none } ∧
    record_arena_size sampleEnv startedTracker 4096 64 =
      { records := [{ addr := 4104, type := 16, size := 64, pc := 0, thread := 0 }],
        failure := none } ∧
    record_virtual_memory_type sampleEnv startedTracker 4096 256 7 =
      { records := [{ addr := 4096, type := 275, size := 0, pc := 0, thread := 7 }],
        failure := none } ∧
    record_virtual_memory_commit sampleEnv startedTracker 0 64 0 7 =
      { records := [{ addr := 0, type := 18, size := 64, pc := 0, thread := 7 }],
        failure := none } :=
  have h := record_one_call sampleEnv startedTracker 4096 64 256 0 7 (by decide)
  have g := record_one_call sampleEnv startedTracker 0 64 272 0 7 (by decide)
  ⟨⟨by decide, by decide, by decide, by decide⟩,
    h.1 (by decide) (fun _ => by decide),
    h.2.2.1 (by decide),
    h.2.2.2.1 (by decide) (fun _ => by decide),
    h.2.2.2.2.2.1 (fun _ => by decide) (fun _ => by decide),
    (g.2.2.2.2.1 (fun _ => by decide)).2.1⟩

/-- C5: with `is_on()`, a trackable category and size > 0, `record_realloc`
makes exactly two calls, in this order: a free record for `old_addr` (free tag,
size 0, pc 0) and a malloc record for `new_addr` with the given size, flags and
pc, both for the given thread; no assertion fails, and the outcome is that of
`record_free(old_addr, flags, thread)` followed by
`record_malloc(new_addr, size, flags, pc, thread)`. -/
theorem record_realloc_free_then_malloc (env : Env) (t : Tracker)
    (old_addr new_addr size flags pc thread : Nat)
    (hon : is_on t = true) (htrack : env.NMT_CAN_TRACK flags = true) (hsize : 0 < size) :
    record_realloc env t old_addr new_addr size flags pc thread =
      { records := [{ addr := old_addr, type := env.free_tag, size := 0, pc := 0,
                      thread := thread },
                    { addr := new_addr, type := flags ||| env.malloc_tag, size := size,
                      pc := pc, thread := thread }],
        failure := none } ∧
    record_realloc env t old_addr new_addr size flags pc thread =
      (record_free env t old_addr flags thread).seq
        (record_malloc env t new_addr size flags pc thread) := by
  have hs : vm_assert env (decide (size > 0)) "Sanity check" = Outcome.skip :=
    vm_assert_of_holds _ _ _ (fun _ => decide_eq_true hsize)
  constructor
  · simp [record_realloc, record_free, record_malloc, hon, htrack, hs, skip_seq,
      create_memory_record, Outcome.seq, Outcome.skip]
  · simp [record_realloc, hon, htrack, hs, skip_seq]

/-- Witness of `record_realloc_free_then_malloc`: a realloc from 8192 to 4096 of
64 bytes. -/
theorem record_realloc_free_then_malloc_witness :
    (is_on startedTracker = true ∧ sampleEnv.NMT_CAN_TRACK 256 = true ∧ 0 < 64) ∧
    record_realloc sampleEnv startedTracker 8192 4096 64 256 12 7 =
      { records := [{ addr := 8192, type := 8, size := 0, pc := 0, thread := 7 },
                    { addr := 4096, type := 257, size := 64, pc := 12, thread := 7 }],
        failure := none } :=
  ⟨⟨by decide, by decide, by decide⟩,
    (record_realloc_free_then_malloc sampleEnv startedTracker 8192 4096 64 256 12 7
      (by decide) (by decide) (by decide)).1⟩

/-! ## The size sanity check -/

/-- C6 (as stated, refuted): in a build with assertions and with tracking on,
`record_virtual_memory_uncommit` and `record_virtual_memory_release` called with
size 0 fail their sanity assertion and make no record, while
`record_arena_size` called with size 0 fails no assertion and makes its
record. -/
theorem size_check_uncommit_release_arena :
    sampleEnv.ASSERT = true ∧ is_on startedTracker = true ∧
    record_virtual_memory_uncommit sampleEnv startedTracker 4096 0 7 =
      { records := [], failure := some "Sanity check" } ∧
    record_virtual_memory_release sampleEnv startedTracker 4096 0 7 =
      { records := [], failure := some "Sanity check" } ∧
    record_arena_size sampleEnv startedTracker 4096 0 =
      { records := [{ addr := 4104, type := 16, size := 0, pc := 0, thread := 0 }],
        failure := none } := by
  decide

/-- C6 (amended): in a build with assertions and with tracking on, a call with
size 0 fails the sanity assertion and makes no record for `record_malloc` and
`record_realloc` (trackable category) and for `record_virtual_memory_reserve`,
`_commit`, `_uncommit` and `_release` (every argument), and with a size above 0
none of the six fails an assertion. `record_arena_size` has no size assertion:
with `UseMallocOnly` off, for a non-null address and size 0 it makes its record.
`record_free` (trackable category) and `record_virtual_memory_type` (non-null
base, memory-type-only flags) take no size and make a record of size 0. -/
theorem size_sanity_check (env : Env) (t : Tracker)
    (addr old_addr size flags pc thread : Nat)
    (hassert : env.ASSERT = true) (hon : is_on t = true) :
    (env.NMT_CAN_TRACK flags = true →
      record_malloc env t addr 0 flags pc thread =
        { records := [], failure := some "Sanity check" } ∧
      record_realloc env t old_addr addr 0 flags pc thread =
        { records := [], failure := some "Sanity check" }) ∧
    (record_virtual_memory_reserve env t addr 0 pc thread =
        { records := [], failure := some "Sanity check" } ∧
      record_virtual_memory_commit env t addr 0 pc thread =
        { records := [], failure := some "Sanity check" } ∧
      record_virtual_memory_uncommit env t addr 0 thread =
        { records := [], failure := some "Sanity check" } ∧
      record_virtual_memory_release env t addr 0 thread =
        { records := [], failure := some "Sanity check" }) ∧
    (0 < size →
      (record_malloc env t addr size flags pc thread).failure = none ∧
      (record_realloc env t old_addr addr size flags pc thread).failure = none ∧
      (record_virtual_memory_reserve env t addr size pc thread).failure = none ∧
      (record_virtual_memory_commit env t addr size pc thread).failure = none ∧
      (record_virtual_memory_uncommit env t addr size thread).failure = none ∧
      (record_virtual_memory_release env t addr size thread).failure = none) ∧
    (t.UseMallocOnly = false → addr ≠ 0 →
      record_arena_size env t addr 0 =
        { records := [{ addr := (addr + sizeof_voidp env.dataModel) %
                          address_range env.dataModel,
                        type := env.arena_size_tag, size := 0, pc := DEBUG_CALLER_PC env,
                        thread := 0 }],
          failure := none }) ∧
    (env.NMT_CAN_TRACK flags = true →
      record_free env t addr flags thread =
        { records := [{ addr := addr, type := env.free_tag, size := 0, pc := 0,
                        thread := thread }],
          failure := none }) ∧
    (addr ≠ 0 → flags &&& bit_complement env.mt_masks = 0 →
      record_virtual_memory_type env t addr flags thread =
        { records := [{ addr := addr, type := flags ||| env.virtual_memory_type_tag,
                        size := 0, pc := DEBUG_CALLER_PC env, thread := thread }],
          failure := none }) := by
  have hz : vm_assert env (decide (0 > 0)) "Sanity check" =
      { records := [], failure := some "Sanity check" } :=
    vm_assert_of_fails _ _ _ hassert (by decide)
  refine ⟨?_, ⟨?_, ?_, ?_, ?_⟩, ?_, ?_, ?_, ?_⟩
  · intro htrack
    constructor
    · unfold record_malloc
      rw [hz, failed_seq]
      simp [hon, htrack]
    · unfold record_realloc
      rw [hz, failed_seq]
      simp [hon, htrack]
  · unfold record_virtual_memory_reserve
    rw [hz, failed_seq]
    simp [hon]
  · unfold record_virtual_memory_commit
    rw [hz, failed_seq]
    simp [hon]
  · unfold record_virtual_memory_uncommit
    rw [hz, failed_seq]
    simp [hon]
  · unfold record_virtual_memory_release
    rw [hz, failed_seq]
    simp [hon]
  · intro hpos
    have hs : vm_assert env (decide (size > 0)) "Sanity check" = Outcome.skip :=
      vm_assert_of_holds _ _ _ (fun _ => decide_eq_true hpos)
    cases htrack : env.NMT_CAN_TRACK flags <;>
      simp [record_malloc, record_realloc, record_free, record_virtual_memory_reserve,
        record_virtual_memory_commit, record_virtual_memory_uncommit,
        record_virtual_memory_release, hon, htrack, hs, skip_seq, create_memory_record,
        Outcome.seq, Outcome.skip]
  · intro huse haddr
    have hn : vm_assert env (decide (addr ≠ 0)) "Sanity check" = Outcome.skip :=
      vm_assert_of_holds _ _ _ (fun _ => decide_eq_true haddr)
    unfold record_arena_size
    rw [hn, skip_seq]
    simp [hon, huse, create_memory_record]
  · intro htrack
    simp [record_free, hon, htrack, create_memory_record]
  · intro haddr hflags
    have hb : vm_assert env (decide (addr > 0)) "wrong base address" = Outcome.skip :=
      vm_assert_of_holds _ _ _ (fun _ => decide_eq_true (Nat.pos_of_ne_zero haddr))
    have hf : vm_assert env (decide (flags &&& bit_complement env.mt_masks = 0))
        "memory type only" = Outcome.skip :=
      vm_assert_of_holds _ _ _ (fun _ => decide_eq_true hflags)
    unfold record_virtual_memory_type
    rw [hb, hf, skip_seq, skip_seq]
    simp [hon, create_memory_record]

/-- Witness of `size_sanity_check` at a started summary-level tracker in a build
with assertions; the size assertion of a commit does not depend on the address
or on the flags. -/
theorem size_sanity_check_witness :
    (sampleEnv.ASSERT = true ∧ is_on startedTracker = true ∧
      sampleEnv.NMT_CAN_TRACK 256 = true) ∧
    record_virtual_memory_commit sampleEnv startedTracker 4096 0 0 7 =
      { records := [], failure := some "Sanity check" } ∧
    record_virtual_memory_commit sampleEnv startedTracker 0 0 0 7 =
      { records := [], failure := some "Sanity check" } ∧
    (record_virtual_memory_commit sampleEnv startedTracker 4096 64 0 7).failure = none ∧
    record_malloc sampleEnv startedTracker 4096 0 256 0 7 =
      { records := [], failure := some "Sanity check" } ∧
    record_free sampleEnv startedTracker 4096 256 7 =
      { records := [{ addr := 4096, type := 8, size := 0, pc := 0, thread := 7 }],
        failure := none } :=
  have h := size_sanity_check sampleEnv startedTracker 4096 8192 64 256 0 7 (by decide)
    (by decide)
  have g := size_sanity_check sampleEnv startedTracker 0 8192 64 272 0 7 (by decide)
    (by decide)
  ⟨⟨by decide, by decide, by decide⟩, h.2.1.2.1, g.2.1.2.1, (h.2.2.1 (by decide)).2.2.2.1,
    (h.1 (by decide)).1, h.2.2.2.2.1 (by decide)⟩

/-! ## Shutdown reasons -/

/-- C7: `reason()` never reaches its default branch and is injective: each of
the nine shutdown reasons yields a message, and two different reasons never
yield the same message; in particular the out-of-memory, out-of-generation and
sequence-overflow messages are pairwise different. -/
theorem reason_total_injective :
    (∀ r : ShutdownReason, ∃ msg : String, reason_of_value r.toNat = some msg) ∧
    Function.Injective (fun r : ShutdownReason => reason_of_value r.toNat) ∧
    (∀ t : Tracker, ∃ msg : String, reason t = some msg) ∧
    (∀ t₁ t₂ : Tracker, t₁._reason ≠ t₂._reason → reason t₁ ≠ reason t₂) ∧
    reason_of_value ShutdownReason.NMT_out_of_memory.toNat ≠
      reason_of_value ShutdownReason.NMT_out_of_generation.toNat ∧
    reason_of_value ShutdownReason.NMT_out_of_memory.toNat ≠
      reason_of_value ShutdownReason.NMT_sequence_overflow.toNat ∧
    reason_of_value ShutdownReason.NMT_out_of_generation.toNat ≠
      reason_of_value ShutdownReason.NMT_sequence_overflow.toNat := by
  have htotal : ∀ r : ShutdownReason, ∃ msg : String, reason_of_value r.toNat = some msg := by
    intro r
    cases r <;> exact ⟨_, rfl⟩
  have hinj : Function.Injective (fun r : ShutdownReason => reason_of_value r.toNat) := by
    intro a b h
    cases a <;> cases b <;> first
      | rfl
      | (exfalso; revert h; decide)
  refine ⟨htotal, hinj, fun t => htotal t._reason, ?_, ?_, ?_, ?_⟩
  · intro t₁ t₂ hne h
    exact hne (hinj h)
  · decide
  · decide
  · decide

/-! ## The address of the arena-size record -/

/-- C8: with tracking on and `UseMallocOnly` off, for every non-null arena
address `addr` such that `addr + sizeof(void*)` does not wrap the address
width, `record_arena_size(addr, size)` makes one record, at address
`addr + sizeof(void*)`. That address is strictly greater than `addr`, hence
different from it, and no address on the pointer-size grid of `addr` lies
strictly between the two; when `addr` is pointer-aligned, no pointer-aligned
address does. -/
theorem arena_size_record_address (env : Env) (t : Tracker) (addr size : Nat)
    (hon : is_on t = true) (huse : t.UseMallocOnly = false) (hnull : addr ≠ 0)
    (hwrap : addr + sizeof_voidp env.dataModel < address_range env.dataModel) :
    record_arena_size env t addr size =
      { records := [{ addr := addr + sizeof_voidp env.dataModel, type := env.arena_size_tag,
                      size := size, pc := DEBUG_CALLER_PC env, thread := 0 }],
        failure := none } ∧
    addr < addr + sizeof_voidp env.dataModel ∧
    addr + sizeof_voidp env.dataModel ≠ addr ∧
    (∀ a : Nat, a % sizeof_voidp env.dataModel = addr % sizeof_voidp env.dataModel →
      ¬ (addr < a ∧ a < addr + sizeof_voidp env.dataModel)) ∧
    (addr % sizeof_voidp env.dataModel = 0 →
      ∀ a : Nat, a % sizeof_voidp env.dataModel = 0 →
        ¬ (addr < a ∧ a < addr + sizeof_voidp env.dataModel)) := by
  have hn : vm_assert env (decide (addr ≠ 0)) "Sanity check" = Outcome.skip :=
    vm_assert_of_holds _ _ _ (fun _ => decide_eq_true hnull)
  have hpos : 0 < sizeof_voidp env.dataModel := by
    cases env.dataModel <;> decide
  have hgrid : ∀ a : Nat,
      a % sizeof_voidp env.dataModel = addr % sizeof_voidp env.dataModel →
        ¬ (addr < a ∧ a < addr + sizeof_voidp env.dataModel) := by
    intro a ha
    cases hdm : env.dataModel <;> rw [hdm] at ha <;> simp only [sizeof_voidp] at ha ⊢ <;> omega
  refine ⟨?_, by omega, by omega, hgrid, ?_⟩
  · unfold record_arena_size
    rw [hn, skip_seq, Nat.mod_eq_of_lt hwrap]
    simp [hon, huse, create_memory_record]
  · intro hal a ha
    exact hgrid a (by rw [ha, hal])

/-- Witness of `arena_size_record_address`: an arena at 4096 on an LP64
platform has its size recorded at 4104. -/
theorem arena_size_record_address_witness :
    (is_on startedTracker = true ∧ startedTracker.UseMallocOnly = false ∧ 4096 ≠ 0 ∧
      4096 + sizeof_voidp sampleEnv.dataModel < address_range sampleEnv.dataModel) ∧
    record_arena_size sampleEnv startedTracker 4096 64 =
      { records := [{ addr := 4104, type := 16, size := 64, pc := 0, thread := 0 }],
        failure := none } :=
  ⟨⟨by decide, by decide, by decide, by decide⟩,
    (arena_size_record_address sampleEnv startedTracker 4096 64 (by decide) (by decide)
      (by decide) (by decide)).1⟩

/-! ## The snapshot during shutdown -/

/-- C10: `shutdown_in_progress()` is true exactly in the states
shutdown-pending, final-shutdown and shutdown; `get_snapshot()` returns `NULL`
if and only if `shutdown_in_progress()` holds or the stored snapshot is `NULL`;
in each of the four earlier states it returns the stored snapshot. -/
theorem get_snapshot_null_iff (t : Tracker) :
    (shutdown_in_progress t = true ↔
      (t._state = NMTStates.NMT_shutdown_pending ∨ t._state = NMTStates.NMT_final_shutdown ∨
        t._state = NMTStates.NMT_shutdown)) ∧
    (get_snapshot t = 0 ↔ (shutdown_in_progress t = true ∨ t._snapshot = 0)) ∧
    ((t._state = NMTStates.NMT_uninited ∨
        t._state = NMTStates.NMT_bootstrapping_single_thread ∨
        t._state = NMTStates.NMT_bootstrapping_multi_thread ∨
        t._state = NMTStates.NMT_started) →
      get_snapshot t = t._snapshot) := by
  obtain ⟨lvl, st, r, sl, sn, au, um⟩ := t
  cases st <;> simp [get_snapshot, shutdown_in_progress, NMTStates.toNat]

/-- Witness of `get_snapshot_null_iff`: a started tracker hands out its stored
snapshot, a tracker whose shutdown is pending hands out `NULL`. -/
theorem get_snapshot_null_iff_witness :
    startedTracker._state = NMTStates.NMT_started ∧
      get_snapshot startedTracker = startedTracker._snapshot ∧
      get_snapshot startedTracker = 4096 ∧
      (get_snapshot pendingTracker = 0 ↔
        (shutdown_in_progress pendingTracker = true ∨ pendingTracker._snapshot = 0)) ∧
      get_snapshot pendingTracker = 0 :=
  ⟨rfl, (get_snapshot_null_iff startedTracker).2.2 (Or.inr (Or.inr (Or.inr rfl))), by decide,
    (get_snapshot_null_iff pendingTracker).2.1, by decide⟩

end MemTracker

namespace GCTrace

/-! ## GC identifiers count up -/

/-- A value between 0 and the largest value of an integer type is unchanged by
conversion to the type. -/
theorem wrap_of_fits (ty : IntType) (v : Int) (h0 : 0 ≤ v) (hmax : v ≤ ty.maxValue) :
    ty.wrap v = v := by
  have hpow : (2 : Int) ^ (ty.bits - 1) ≤ 2 ^ ty.bits :=
    pow_le_pow_right₀ (by norm_num) (Nat.sub_le _ _)
  unfold IntType.maxValue at hmax
  unfold IntType.wrap
  cases hs : ty.signed
  · simp only [hs, Bool.false_and, if_false, Bool.false_eq_true] at hmax ⊢
    exact Int.emod_eq_of_lt h0 (by omega)
  · simp only [hs, if_true] at hmax
    have hlt : v < 2 ^ ty.bits := by omega
    rw [Int.emod_eq_of_lt h0 hlt]
    have : ¬ (v ≥ 2 ^ (ty.bits - 1)) := by omega
    simp [this]

/-- The run from any counter value: each call stores the counter value it
finds and leaves the counter one higher. -/
theorem report_gc_starts_from (cfg : Config) (calls : List StartCall) :
    ∀ k : Nat,
      (cfg.ASSERT = true → ∀ c ∈ calls, c.tracer._shared_gc_info._id = cfg.UNSET_GCID) →
      ((k + calls.length : Nat) : Int) ≤ cfg.GCId.maxValue + 1 →
      ((k + calls.length : Nat) : Int) ≤ jlong.maxValue →
      ∃ trs : List GCTracer,
        report_gc_starts cfg k calls = Except.ok (((k + calls.length : Nat) : Int), trs) ∧
        stored_ids trs = (List.range' k calls.length).map (fun n : Nat => (n : Int)) := by
  induction calls with
  | nil =>
    intro k _ _ _
    exact ⟨[], by simp [report_gc_starts], by simp [stored_ids]⟩
  | cons c cs ih =>
    intro k hopen hfit h64
    simp only [List.length_cons] at hfit h64
    have hc : (cfg.ASSERT && !decide (c.tracer._shared_gc_info._id = cfg.UNSET_GCID)) = false := by
      cases ha : cfg.ASSERT
      · rfl
      · simp [hopen ha c (List.mem_cons_self _ _)]
    have hid : cfg.GCId.wrap (k : Int) = k :=
      wrap_of_fits _ _ (Int.natCast_nonneg k) (by push_cast at hfit; omega)
    have hnext : jlong.wrap ((k : Int) + 1) = ((k + 1 : Nat) : Int) := by
      rw [wrap_of_fits _ _ (by omega) (by push_cast at h64; omega)]
      push_cast
      rfl
    obtain ⟨trs, hrun, hids⟩ := ih (k + 1)
      (fun ha c' hc' => hopen ha c' (List.mem_cons_of_mem _ hc'))
      (by rw [show k + 1 + cs.length = k + (cs.length + 1) by omega]; exact hfit)
      (by rw [show k + 1 + cs.length = k + (cs.length + 1) by omega]; exact h64)
    refine ⟨{ c.tracer with _shared_gc_info :=
        { c.tracer._shared_gc_info with
          _id := (k : Int), _cause := c.cause, _start_timestamp := c.timestamp } } :: trs, ?_, ?_⟩
    · simp only [report_gc_starts, report_gc_start, report_gc_start_impl, create_new_gc_id, hc,
        hid, hnext, hrun, Bool.false_eq_true, if_false, List.length_cons]
      rw [show k + 1 + cs.length = k + (cs.length + 1) by omega]
    · simp [stored_ids, List.range'] at hids ⊢
      exact hids

/-- C9 (as stated, refuted): in a build with assertions, a first
`report_gc_start` on an idle tracer stores id 0 and leaves the counter at 1; a
second `report_gc_start` on that tracer, whose report is still open, stops at
the entry assertion and stores no id. -/
theorem second_start_on_open_tracer :
    report_gc_start sampleConfig 0 idleTracer 1 100 = Except.ok (1, openTracer) ∧
      has_reported_gc_start sampleConfig openTracer = true ∧
      report_gc_start sampleConfig 1 openTracer 2 200 = Except.error "GC already started?" :=
  ⟨rfl, by decide, rfl⟩

/-- The conversion to `GCId` matters when the type is narrower than the
counter: with a 32-bit unsigned `GCId`, the call that finds the counter at
`2 ^ 32` returns id 0. -/
theorem create_new_gc_id_narrow :
    create_new_gc_id sampleConfig 4294967296 = (0, 4294967297) := by
  decide

/-- C9 (amended): starting from counter value 0, when every call of
`report_gc_start` passes its entry assertion (its tracer has no report open, or
assertions are compiled out) and the number of calls overflows neither the
64-bit counter nor the `GCId` type, the run completes, the n-th call
(n = 0, 1, 2, ...) stores id n in its tracer's shared GC info and the final
counter value is the number of calls; so the ids are strictly increasing in
call order and no two starts share an id. -/
theorem gc_ids_count_up (cfg : Config) (calls : List StartCall)
    (hopen : cfg.ASSERT = true → ∀ c ∈ calls, c.tracer._shared_gc_info._id = cfg.UNSET_GCID)
    (hfit : (calls.length : Int) ≤ cfg.GCId.maxValue + 1)
    (h64 : (calls.length : Int) ≤ jlong.maxValue) :
    ∃ trs : List GCTracer,
      report_gc_starts cfg 0 calls = Except.ok ((calls.length : Int), trs) ∧
      stored_ids trs = (List.range calls.length).map (fun n : Nat => (n : Int)) ∧
      (∀ n : Nat, n < calls.length → (stored_ids trs)[n]? = some (n : Int)) ∧
      (stored_ids trs).Pairwise (fun a b => a < b) ∧
      (stored_ids trs).Nodup := by
  obtain ⟨trs, hrun, hids⟩ := report_gc_starts_from cfg calls 0 hopen
    (by simpa using hfit) (by simpa using h64)
  have hids2 : stored_ids trs = (List.range calls.length).map (fun n : Nat => (n : Int)) := by
    rw [hids, List.range_eq_range']
  have hpw : (stored_ids trs).Pairwise (fun a b => a < b) := by
    rw [hids2, List.pairwise_map]
    exact (List.pairwise_lt_range _).imp (fun h => by exact_mod_cast h)
  refine ⟨trs, by simpa using hrun, hids2, ?_, hpw, hpw.imp (fun h => ne_of_lt h)⟩
  intro n hn
  rw [hids2]
  simp [List.getElem?_range, hn]

/-- Witness of `gc_ids_count_up`: three GC starts on idle tracers, `GCId` being
a 32-bit unsigned type, receive the ids 0, 1 and 2. -/
theorem gc_ids_count_up_witness :
    ((sampleConfig.ASSERT = true →
        ∀ c ∈ sampleStarts, c.tracer._shared_gc_info._id = sampleConfig.UNSET_GCID) ∧
      (sampleStarts.length : Int) ≤ sampleConfig.GCId.maxValue + 1 ∧
      (sampleStarts.length : Int) ≤ jlong.maxValue) ∧
    ∃ trs : List GCTracer,
      report_gc_starts sampleConfig 0 sampleStarts = Except.ok (3, trs) ∧
      stored_ids trs = [0, 1, 2] :=
  have h := gc_ids_count_up sampleConfig sampleStarts (by decide) (by decide) (by decide)
  ⟨⟨by decide, by decide, by decide⟩, h.elim (fun trs ht => ⟨trs, ht.1, ht.2.1⟩)⟩

end GCTrace

namespace MemTracker

/-! ## The auto-shutdown toggle -/

/-- C11: `set_autoShutdown(value)` sets the auto-shutdown toggle to `value`;
when `value` is true the slow-down-calling-thread flag is false afterwards, when
`value` is false that flag is unchanged. So after every call auto-shutdown is
never enabled together with the slow-down flag, and the state, the level, the
reason (and the snapshot pointer and `UseMallocOnly`) are unchanged. -/
theorem set_autoShutdown_effect (t : Tracker) (value : Bool) :
    (set_autoShutdown t value).AutoShutdownNMT = value ∧
    (value = true → (set_autoShutdown t value)._slowdown_calling_thread = false) ∧
    (value = false →
      (set_autoShutdown t value)._slowdown_calling_thread = t._slowdown_calling_thread) ∧
    ¬ ((set_autoShutdown t value).AutoShutdownNMT = true ∧
        (set_autoShutdown t value)._slowdown_calling_thread = true) ∧
    (set_autoShutdown t value)._state = t._state ∧
    (set_autoShutdown t value)._tracking_level = t._tracking_level ∧
    (set_autoShutdown t value)._reason = t._reason ∧
    (set_autoShutdown t value)._snapshot = t._snapshot ∧
    (set_autoShutdown t value).UseMallocOnly = t.UseMallocOnly := by
  obtain ⟨lvl, st, r, sl, sn, au, um⟩ := t
  cases value <;> cases sl <;> simp [set_autoShutdown]

/-- Witness of `set_autoShutdown_effect` at a tracker that is slowing down the
calling thread: enabling auto-shutdown clears the flag, disabling it keeps the
flag. -/
theorem set_autoShutdown_effect_witness :
    throttledTracker._slowdown_calling_thread = true ∧
      (set_autoShutdown throttledTracker true)._slowdown_calling_thread = false ∧
      (set_autoShutdown throttledTracker true).AutoShutdownNMT = true ∧
      (set_autoShutdown throttledTracker false)._slowdown_calling_thread = true ∧
      (set_autoShutdown throttledTracker false)._state = NMTStates.NMT_started :=
  ⟨rfl, (set_autoShutdown_effect throttledTracker true).2.1 rfl,
    (set_autoShutdown_effect throttledTracker true).1,
    (set_autoShutdown_effect throttledTracker false).2.2.1 rfl,
    (set_autoShutdown_effect throttledTracker false).2.2.2.2.1⟩

/-! ## Thread stacks -/

/-- C13 (as stated, refuted): in a build with assertions and with tracking on,
`record_thread_stack` called with size 0, or with a null thread, fails its
sanity assertion and makes no record; `release_thread_stack` called for a
thread that is a Java thread fails the assertion "too early" and makes no
record. -/
theorem thread_stack_stopped_by_assertion :
    is_on startedTracker = true ∧
      record_thread_stack sampleEnv startedTracker 4096 0 7 0 =
        { records := [], failure := some "Sanity check" } ∧
      record_thread_stack sampleEnv startedTracker 4096 64 0 0 =
        { records := [], failure := some "Sanity check" } ∧
      release_thread_stack sampleEnv startedTracker 4096 0 7 =
        { records := [], failure := some "Sanity check" } ∧
      javaThreadEnv.is_Java_thread 7 = true ∧
      release_thread_stack javaThreadEnv startedTracker 4096 64 7 =
        { records := [], failure := some "too early" } := by
  decide

/-- C13 (amended): with tracking on, when its sanity assertion holds or is
compiled out (size > 0 and a non-null thread), `record_thread_stack(addr, size,
thr)` makes exactly two records, reserve then commit; when its sanity
assertions hold or are compiled out (size > 0, a non-null thread, and a thread
that is not a Java thread), `release_thread_stack(addr, size, thr)` makes
exactly two, uncommit then release. All four carry the thread-stack category,
the same address, size and thread; the two calls one after the other yield
reserve, commit, uncommit, release, where the reserve is matched by the later
release and the commit by the later uncommit, of equal size. -/
theorem thread_stack_records (env : Env) (t : Tracker) (addr size thr pc : Nat)
    (hon : is_on t = true)
    (hsize : env.ASSERT = true → 0 < size)
    (hthr : env.ASSERT = true → thr ≠ 0) :
    record_thread_stack env t addr size thr pc =
      { records :=
          [{ addr := addr, type := env.virtual_memory_reserve_tag ||| env.mtThreadStack,
             size := size, pc := pc, thread := thr },
           { addr := addr, type := env.virtual_memory_commit_tag ||| env.mtThreadStack,
             size := size, pc := pc, thread := thr }],
        failure := none } ∧
    ((env.ASSERT = true → env.is_Java_thread thr = false) →
      release_thread_stack env t addr size thr =
        { records :=
            [{ addr := addr, type := env.virtual_memory_uncommit_tag ||| env.mtThreadStack,
               size := size, pc := DEBUG_CALLER_PC env, thread := thr },
             { addr := addr, type := env.virtual_memory_release_tag ||| env.mtThreadStack,
               size := size, pc := DEBUG_CALLER_PC env, thread := thr }],
          failure := none } ∧
      (record_thread_stack env t addr size thr pc).seq
          (release_thread_stack env t addr size thr) =
        { records :=
            [{ addr := addr, type := env.virtual_memory_reserve_tag ||| env.mtThreadStack,
               size := size, pc := pc, thread := thr },
             { addr := addr, type := env.virtual_memory_commit_tag ||| env.mtThreadStack,
               size := size, pc := pc, thread := thr },
             { addr := addr, type := env.virtual_memory_uncommit_tag ||| env.mtThreadStack,
               size := size, pc := DEBUG_CALLER_PC env, thread := thr },
             { addr := addr, type := env.virtual_memory_release_tag ||| env.mtThreadStack,
               size := size, pc := DEBUG_CALLER_PC env, thread := thr }],
          failure := none } ∧
      ((record_thread_stack env t addr size thr pc).seq
          (release_thread_stack env t addr size thr)).records.map (fun r => r.size) =
        [size, size, size, size]) ∧
    ((env.virtual_memory_reserve_tag ||| env.mtThreadStack) &&& env.mtThreadStack =
        env.mtThreadStack ∧
      (env.virtual_memory_commit_tag ||| env.mtThreadStack) &&& env.mtThreadStack =
        env.mtThreadStack ∧
      (env.virtual_memory_uncommit_tag ||| env.mtThreadStack) &&& env.mtThreadStack =
        env.mtThreadStack ∧
      (env.virtual_memory_release_tag ||| env.mtThreadStack) &&& env.mtThreadStack =
        env.mtThreadStack) := by
  have hs : vm_assert env (decide (size > 0) && decide (thr ≠ 0)) "Sanity check" =
      Outcome.skip :=
    vm_assert_of_holds _ _ _ (fun ha => by
      rw [decide_eq_true (hsize ha), decide_eq_true (hthr ha)]
      rfl)
  have h1 : record_thread_stack env t addr size thr pc =
      { records :=
          [{ addr := addr, type := env.virtual_memory_reserve_tag ||| env.mtThreadStack,
             size := size, pc := pc, thread := thr },
           { addr := addr, type := env.virtual_memory_commit_tag ||| env.mtThreadStack,
             size := size, pc := pc, thread := thr }],
        failure := none } := by
    unfold record_thread_stack
    rw [hs, skip_seq]
    simp [hon, create_memory_record, Outcome.seq]
  refine ⟨h1, ?_, ⟨lor_land_tag _ _, lor_land_tag _ _, lor_land_tag _ _, lor_land_tag _ _⟩⟩
  intro hjava
  have hj : vm_assert env (!env.is_Java_thread thr) "too early" = Outcome.skip :=
    vm_assert_of_holds _ _ _ (fun ha => by rw [hjava ha]; rfl)
  have h2 : release_thread_stack env t addr size thr =
      { records :=
          [{ addr := addr, type := env.virtual_memory_uncommit_tag ||| env.mtThreadStack,
             size := size, pc := DEBUG_CALLER_PC env, thread := thr },
           { addr := addr, type := env.virtual_memory_release_tag ||| env.mtThreadStack,
             size := size, pc := DEBUG_CALLER_PC env, thread := thr }],
        failure := none } := by
    unfold release_thread_stack
    rw [hs, hj, skip_seq, skip_seq]
    simp [hon, create_memory_record, Outcome.seq]
  refine ⟨h2, ?_, ?_⟩
  · rw [h1, h2]
    simp [Outcome.seq]
  · rw [h1, h2]
    simp [Outcome.seq]

/-- Witness of `thread_stack_records`: the stack at 4096 of 64 bytes of the
thread at 7, recorded and then released; where the thread at 7 is a Java
thread, its stack is recorded all the same. -/
theorem thread_stack_records_witness :
    (is_on startedTracker = true ∧ 0 < 64 ∧ 7 ≠ 0 ∧ sampleEnv.is_Java_thread 7 = false ∧
      javaThreadEnv.is_Java_thread 7 = true) ∧
    (record_thread_stack sampleEnv startedTracker 4096 64 7 0).seq
        (release_thread_stack sampleEnv startedTracker 4096 64 7) =
      { records :=
          [{ addr := 4096, type := 785, size := 64, pc := 0, thread := 7 },
           { addr := 4096, type := 786, size := 64, pc := 0, thread := 7 },
           { addr := 4096, type := 788, size := 64, pc := 0, thread := 7 },
           { addr := 4096, type := 792, size := 64, pc := 0, thread := 7 }],
        failure := none } ∧
    record_thread_stack javaThreadEnv startedTracker 4096 64 7 0 =
      { records :=
          [{ addr := 4096, type := 785, size := 64, pc := 0, thread := 7 },
           { addr := 4096, type := 786, size := 64, pc := 0, thread := 7 }],
        failure := none } :=
  ⟨⟨by decide, by decide, by decide, by decide, by decide⟩,
    ((thread_stack_records sampleEnv startedTracker 4096 64 7 0 (by decide)
      (fun _ => by decide) (fun _ => by decide)).2.1 (fun _ => by decide)).2.1,
    (thread_stack_records javaThreadEnv startedTracker 4096 64 7 0 (by decide)
      (fun _ => by decide) (fun _ => by decide)).1⟩

end MemTracker

namespace GCTrace

/-! ## A report is open between its start and its end -/

/-- On a tracer that passes the entry assertion `report_gc_start` completes:
it stores the id made from the counter, the cause and the start timestamp. -/
theorem report_gc_start_of_idle (cfg : Config) (GCTracer_next_gc_id : Int) (tr : GCTracer)
    (cause : Nat) (timestamp : Int)
    (h : tr._shared_gc_info._id = cfg.UNSET_GCID ∨ cfg.ASSERT = false) :
    report_gc_start cfg GCTracer_next_gc_id tr cause timestamp =
      Except.ok (jlong.wrap (GCTracer_next_gc_id + 1),
        { tr with _shared_gc_info :=
            { tr._shared_gc_info with
              _id := cfg.GCId.wrap GCTracer_next_gc_id
              _cause := cause
              _start_timestamp := timestamp } }) := by
  rcases h with h | h <;> simp [report_gc_start, report_gc_start_impl, create_new_gc_id, h]

/-- C12 (as stated, refuted): in a build with assertions, a `report_gc_start`
on an idle tracer of class `YoungGCTracer` opens a report, and the
`report_gc_end` that follows passes the entry assertion but stops at the
assertion of `YoungGCTracer::report_gc_end_impl`, no tenuring threshold having
been reported: the id is not reset. -/
theorem young_end_without_threshold :
    report_gc_start sampleConfig 0 idleYoungTracer 1 100 = Except.ok (1, openYoungTracer) ∧
      has_reported_gc_start sampleConfig openYoungTracer = true ∧
      report_gc_end sampleConfig openYoungTracer 500 samplePartitions =
        Except.error "Tenuring threshold has not been reported" :=
  ⟨rfl, by decide, rfl⟩

/-- C12 (amended): provided the id made from the counter is not the sentinel
`UNSET_GCID`, a `report_gc_start` that passes its entry assertion (no report
open on the tracer, or assertions compiled out) completes and leaves
`has_reported_gc_start()` true. On a tracer with an open report, a
`report_gc_end` that passes the assertions of the `report_gc_end_impl` of its
class (for the classes `YoungGCTracer` and `G1NewTracer` the tenuring threshold
has been reported, or assertions are compiled out) completes, sends the end
events of the class while the id is still the one of the start, then resets the
id to `UNSET_GCID` and leaves `has_reported_gc_start()` false. In a build with
assertions `report_gc_start` on a tracer with an open report fails the entry
assertion, `report_gc_end` on a tracer with none fails the entry assertion, and
`report_gc_end` on a young tracer with an open report and no tenuring threshold
reported fails the assertion of `YoungGCTracer::report_gc_end_impl`. -/
theorem report_open_between_start_and_end (cfg : Config) (tr : GCTracer)
    (GCTracer_next_gc_id : Int) (cause : Nat) (timestamp end_timestamp : Int)
    (tp : TimePartitions) :
    (cfg.GCId.wrap GCTracer_next_gc_id ≠ cfg.UNSET_GCID →
      (has_reported_gc_start cfg tr = false ∨ cfg.ASSERT = false) →
      ∃ (next1 : Int) (tr1 : GCTracer),
        report_gc_start cfg GCTracer_next_gc_id tr cause timestamp = Except.ok (next1, tr1) ∧
        has_reported_gc_start cfg tr1 = true ∧
        tr1._shared_gc_info._id = cfg.GCId.wrap GCTracer_next_gc_id ∧
        tr1.dynamic_class = tr.dynamic_class ∧
        tr1._tenuring_threshold = tr._tenuring_threshold) ∧
    (has_reported_gc_start cfg tr = true →
      (cfg.ASSERT = true →
        (tr.dynamic_class = TracerClass.YoungGCTracer ∨
          tr.dynamic_class = TracerClass.G1NewTracer) →
        tr._tenuring_threshold ≠ cfg.UNSET_TENURING_THRESHOLD) →
      ∃ (tr2 : GCTracer) (events : List SentEvent),
        report_gc_end cfg tr end_timestamp tp = Except.ok (tr2, events) ∧
        has_reported_gc_start cfg tr2 = false ∧
        tr2._shared_gc_info._id = cfg.UNSET_GCID ∧
        tr2.dynamic_class = tr.dynamic_class ∧
        (∀ e ∈ events, e.tracer._shared_gc_info._id = tr._shared_gc_info._id) ∧
        (tr.dynamic_class = TracerClass.GCTracer →
          events.map (fun e => e.call) =
            [SendCall.send_phase_events, SendCall.send_garbage_collection_event]) ∧
        (tr.dynamic_class = TracerClass.YoungGCTracer →
          events.map (fun e => e.call) =
            [SendCall.send_phase_events, SendCall.send_garbage_collection_event,
             SendCall.send_young_gc_event]) ∧
        (tr.dynamic_class = TracerClass.OldGCTracer →
          events.map (fun e => e.call) =
            [SendCall.send_phase_events, SendCall.send_garbage_collection_event,
             SendCall.send_old_gc_event]) ∧
        (tr.dynamic_class = TracerClass.ParallelOldTracer →
          events.map (fun e => e.call) =
            [SendCall.send_phase_events, SendCall.send_garbage_collection_event,
             SendCall.send_old_gc_event, SendCall.send_parallel_old_event]) ∧
        (tr.dynamic_class = TracerClass.G1NewTracer →
          events.map (fun e => e.call) =
            [SendCall.send_phase_events, SendCall.send_garbage_collection_event,
             SendCall.send_young_gc_event, SendCall.send_g1_young_gc_event])) ∧
    (cfg.ASSERT = true → has_reported_gc_start cfg tr = true →
      report_gc_start cfg GCTracer_next_gc_id tr cause timestamp =
        Except.error "GC already started?") ∧
    (cfg.ASSERT = true → has_reported_gc_start cfg tr = false →
      report_gc_end cfg tr end_timestamp tp = Except.error "GC not started?") ∧
    (cfg.ASSERT = true → has_reported_gc_start cfg tr = true →
      (tr.dynamic_class = TracerClass.YoungGCTracer ∨
        tr.dynamic_class = TracerClass.G1NewTracer) →
      tr._tenuring_threshold = cfg.UNSET_TENURING_THRESHOLD →
      report_gc_end cfg tr end_timestamp tp =
        Except.error "Tenuring threshold has not been reported") := by
  refine ⟨?_, ?_, ?_, ?_, ?_⟩
  · intro hsentinel h
    have hidle : tr._shared_gc_info._id = cfg.UNSET_GCID ∨ cfg.ASSERT = false := by
      rcases h with h | h
      · left
        simpa [has_reported_gc_start] using h
      · exact Or.inr h
    refine ⟨_, _, report_gc_start_of_idle cfg GCTracer_next_gc_id tr cause timestamp hidle,
      ?_, rfl, rfl, rfl⟩
    simpa [has_reported_gc_start] using hsentinel
  · intro h hthr
    have hopen : tr._shared_gc_info._id ≠ cfg.UNSET_GCID := by
      simpa [has_reported_gc_start] using h
    obtain ⟨cls, info, thr⟩ := tr
    simp only at hopen hthr
    cases ha : cfg.ASSERT <;> cases cls <;>
      simp_all [report_gc_end, report_gc_end_impl, GCTracer.report_gc_end_impl,
        YoungGCTracer.report_gc_end_impl, OldGCTracer.report_gc_end_impl,
        ParallelOldTracer.report_gc_end_impl, G1NewTracer.report_gc_end_impl, set_end_info,
        has_reported_gc_start] <;>
      refine ⟨_, _, ⟨rfl, rfl⟩, ?_⟩ <;> simp
  · intro ha h
    have hopen : tr._shared_gc_info._id ≠ cfg.UNSET_GCID := by
      simpa [has_reported_gc_start] using h
    simp [report_gc_start, ha, hopen]
  · intro ha h
    have hidle : tr._shared_gc_info._id = cfg.UNSET_GCID := by
      simpa [has_reported_gc_start] using h
    simp [report_gc_end, ha, hidle]
  · intro ha h hcls hthr
    have hopen : tr._shared_gc_info._id ≠ cfg.UNSET_GCID := by
      simpa [has_reported_gc_start] using h
    obtain ⟨cls, info, thr⟩ := tr
    simp only at hopen hthr hcls
    rcases hcls with hcls | hcls <;> subst hcls <;>
      simp [report_gc_end, report_gc_end_impl, YoungGCTracer.report_gc_end_impl,
        G1NewTracer.report_gc_end_impl, ha, hopen, hthr]

/-- Witness of `report_open_between_start_and_end`: a start on an idle young
tracer at counter value 0 opens a report; once a tenuring threshold has been
reported the end closes it, sending three events; an end on an idle tracer, and
a start on a tracer with an open report, fail the entry assertion. -/
theorem report_open_between_start_and_end_witness :
    (sampleConfig.GCId.wrap 0 ≠ sampleConfig.UNSET_GCID ∧
      has_reported_gc_start sampleConfig idleYoungTracer = false ∧
      has_reported_gc_start sampleConfig (report_tenuring_threshold openYoungTracer 3) = true ∧
      (report_tenuring_threshold openYoungTracer 3)._tenuring_threshold ≠
        sampleConfig.UNSET_TENURING_THRESHOLD) ∧
    (∃ (next1 : Int) (tr1 : GCTracer),
      report_gc_start sampleConfig 0 idleYoungTracer 1 100 = Except.ok (next1, tr1) ∧
      has_reported_gc_start sampleConfig tr1 = true) ∧
    (∃ (tr2 : GCTracer) (events : List SentEvent),
      report_gc_end sampleConfig (report_tenuring_threshold openYoungTracer 3) 500
          samplePartitions = Except.ok (tr2, events) ∧
      has_reported_gc_start sampleConfig tr2 = false ∧
      events.map (fun e => e.call) =
        [SendCall.send_phase_events, SendCall.send_garbage_collection_event,
         SendCall.send_young_gc_event]) ∧
    report_gc_end sampleConfig idleTracer 500 samplePartitions = Except.error "GC not started?" ∧
    report_gc_start sampleConfig 1 openTracer 2 200 = Except.error "GC already started?" :=
  have h := report_open_between_start_and_end sampleConfig idleYoungTracer 0 1 100 500
    samplePartitions
  have g := report_open_between_start_and_end sampleConfig
    (report_tenuring_threshold openYoungTracer 3) 1 2 200 500 samplePartitions
  have i := report_open_between_start_and_end sampleConfig idleTracer 0 1 100 500
    samplePartitions
  have o := report_open_between_start_and_end sampleConfig openTracer 1 2 200 500
    samplePartitions
  ⟨⟨by decide, by decide, by decide, by decide⟩,
    (h.1 (by decide) (Or.inl (by decide))).elim fun next1 h1 => h1.elim fun tr1 h2 =>
      ⟨next1, tr1, h2.1, h2.2.1⟩,
    (g.2.1 (by decide) (fun _ _ => by decide)).elim fun tr2 h1 => h1.elim fun events h2 =>
      ⟨tr2, events, h2.1, h2.2.1, h2.2.2.2.2.2.2.1 rfl⟩,
    i.2.2.2.1 rfl (by decide), o.2.2.1 rfl (by decide)⟩

end GCTrace
